import Mathlib

/-!
# Verification of cvs2svn output handling, option checking and verifier

Shallow embedding of three modules of the cvs2svn repository:

* `cvs2svn_lib/output_option.py` — the SVN output option classes and their
  commit-processing callbacks;
* `cvs2svn_lib/run_options.py` — command-line option consistency checks and
  symbol-strategy rule-list construction;
* `contrib/verify-cvs2svn.py` — the conversion verifier.

Python functions become Lean functions; calls on the repository mirror are
recorded as a trace of `MirrorCall` values; Python exceptions become
`Except` results; the filesystem is passed in as explicit predicates.
-/

set_option autoImplicit false

namespace Cvs2svn

/-! ## Embedding of `cvs2svn_lib/output_option.py`

A call made on the `SVNRepositoryMirror` instance `self.repos`.  The
commit-processing methods of `SVNOutputOption` are embedded as functions
returning the ordered list of mirror calls they perform. -/

inductive MirrorCall where
  /-- `self.repos.start_commit(revnum, revprops)` (revprops not modelled). -/
  | startCommit (revnum : Nat)
  /-- `self.repos.mkdir(path)` -/
  | mkdir (path : String)
  /-- `self.repos.add_path(cvs_rev)`; recorded with the revision's SVN path. -/
  | addPath (path : String)
  /-- `self.repos.change_path(cvs_rev)`; recorded with the revision's SVN path. -/
  | changePath (path : String)
  /-- `self.repos.delete_path(path)` / `delete_path(path, prune)`; `prune` is
  `none` when the call leaves the mirror's default in place. -/
  | deletePath (path : String) (prune : Option Bool)
  /-- `self.repos.copy_path(src_path, dst_path, src_revnum, enforce_empty_dst)` -/
  | copyPath (src dst : String) (srcRevnum : Nat) (enforceEmptyDst : Bool)
  /-- `self.repos.fill_symbol(svn_commit)`; recorded with the symbol's clean name. -/
  | fillSymbol (symbolName : String)
  /-- `self.repos.end_commit()` -/
  | endCommit
  deriving DecidableEq, Repr

/-- The runtime subtype of a `CVSRevision` object, as tested by the
`isinstance` chains in `process_primary_commit` and `process_post_commit`.
`otherSubtype` stands for any instance that is none of the four leaf
classes `CVSRevisionAdd`, `CVSRevisionChange`, `CVSRevisionDelete`,
`CVSRevisionNoop` (the `else` arm of `process_post_commit`). -/
inductive RevKind where
  | add
  | change
  | delete
  | noop
  | otherSubtype
  deriving DecidableEq, Repr

/-- A `CVSRevision` as seen by the output option: its runtime subtype,
`cvs_rev.get_svn_path()` (the path of the revision on its own line of
development), and `cvs_rev.cvs_file.project.get_trunk_path(cvs_rev.cvs_path)`
(the corresponding trunk path). -/
structure CVSRevision where
  kind : RevKind
  svnPath : String
  trunkPath : String
  deriving DecidableEq, Repr

/-- An `SVNPrimaryCommit`: its revnum and contained `cvs_revs`. -/
structure SVNPrimaryCommit where
  revnum : Nat
  cvs_revs : List CVSRevision
  deriving Repr

/-- An `SVNPostCommit`: its revnum, the revnum of the motivating
`RevisionChangeset`, and contained `cvs_revs`. -/
structure SVNPostCommit where
  revnum : Nat
  motivating_revnum : Nat
  cvs_revs : List CVSRevision
  deriving Repr

/-- A project, as used by `process_initial_project_commit`:
`trunk_path`, `branches_path`, `tags_path`. -/
structure Project where
  trunk_path : String
  branches_path : String
  tags_path : String
  deriving Repr

/-- An `SVNInitialProjectCommit`: its revnum and projects. -/
structure SVNInitialProjectCommit where
  revnum : Nat
  projects : List Project
  deriving Repr

/-- An `SVNBranchCommit` or `SVNTagCommit`: its revnum and its symbol's
clean name. -/
structure SVNSymbolCommit where
  revnum : Nat
  symbolName : String
  deriving Repr

/-- `InternalError` / `FatalError` from `cvs2svn_lib.common`. -/
inductive CvsError where
  | internal (msg : String)
  | fatal (msg : String)
  deriving DecidableEq, Repr

/-- `SVNOutputOption.process_initial_project_commit`, parametrised by
`Ctx().trunk_only`.  For each project: `mkdir(trunk_path)` when the trunk
path is non-empty, then `mkdir(branches_path)`; `mkdir(tags_path)` unless
trunk-only; all wrapped in one `start_commit` / `end_commit` pair. -/
def process_initial_project_commit (trunkOnly : Bool)
    (svn_commit : SVNInitialProjectCommit) : List MirrorCall :=
  MirrorCall.startCommit svn_commit.revnum ::
    (svn_commit.projects.flatMap (fun project =>
      (if project.trunk_path ≠ "" then [MirrorCall.mkdir project.trunk_path] else []) ++
      (if !trunkOnly then
        [MirrorCall.mkdir project.branches_path, MirrorCall.mkdir project.tags_path]
      else []))) ++
    [MirrorCall.endCommit]

/-- The mirror calls performed for one `cvs_rev` in the body of the
`for` loop of `SVNOutputOption.process_primary_commit`.  Note that the
`isinstance` chain has no `else` arm: a revision of an unexpected subtype
falls through all four tests and contributes nothing. -/
def primary_commit_rev_calls (prune : Bool) (cvs_rev : CVSRevision) : List MirrorCall :=
  match cvs_rev.kind with
  | RevKind.noop => []
  | RevKind.delete => [MirrorCall.deletePath cvs_rev.svnPath (some prune)]
  | RevKind.add => [MirrorCall.addPath cvs_rev.svnPath]
  | RevKind.change => [MirrorCall.changePath cvs_rev.svnPath]
  | RevKind.otherSubtype => []

/-- `SVNOutputOption.process_primary_commit`, parametrised by `Ctx().prune`.
Performs `start_commit`, the per-revision calls, then `end_commit`. -/
def process_primary_commit (prune : Bool) (svn_commit : SVNPrimaryCommit) :
    List MirrorCall :=
  MirrorCall.startCommit svn_commit.revnum ::
    svn_commit.cvs_revs.flatMap (primary_commit_rev_calls prune) ++
    [MirrorCall.endCommit]

/-- The mirror calls performed for one `cvs_rev` in the body of the `for`
loop of `SVNOutputOption.process_post_commit`: an unexpected subtype raises
`InternalError('Unexpected CVSRevision type: ...')`. -/
def post_commit_rev_calls (motivating_revnum : Nat) (cvs_rev : CVSRevision) :
    Except CvsError (List MirrorCall) :=
  match cvs_rev.kind with
  | RevKind.add =>
      Except.ok
        [MirrorCall.copyPath cvs_rev.svnPath cvs_rev.trunkPath motivating_revnum true]
  | RevKind.change =>
      Except.ok
        [MirrorCall.deletePath cvs_rev.trunkPath none,
         MirrorCall.copyPath cvs_rev.svnPath cvs_rev.trunkPath motivating_revnum true]
  | RevKind.delete =>
      Except.ok [MirrorCall.deletePath cvs_rev.trunkPath none]
  | RevKind.noop =>
      Except.ok []
  | RevKind.otherSubtype =>
      Except.error (CvsError.internal "Unexpected CVSRevision type")

/-- The `for` loop of `process_post_commit`, accumulating the trace.  A
raised `InternalError` propagates out of the loop. -/
def post_commit_loop (motivating_revnum : Nat) :
    List CVSRevision → Except CvsError (List MirrorCall)
  | [] => Except.ok []
  | cvs_rev :: rest =>
      match post_commit_rev_calls motivating_revnum cvs_rev with
      | Except.error e => Except.error e
      | Except.ok calls =>
          match post_commit_loop motivating_revnum rest with
          | Except.error e => Except.error e
          | Except.ok restCalls => Except.ok (calls ++ restCalls)

/-- `SVNOutputOption.process_post_commit`.  Performs `start_commit`, then
for each contained revision the synchronisation calls (raising
`InternalError` on an unexpected subtype), then `end_commit`. -/
def process_post_commit (svn_commit : SVNPostCommit) :
    Except CvsError (List MirrorCall) :=
  match post_commit_loop svn_commit.motivating_revnum svn_commit.cvs_revs with
  | Except.error e => Except.error e
  | Except.ok body =>
      Except.ok
        (MirrorCall.startCommit svn_commit.revnum :: body ++ [MirrorCall.endCommit])

/-- `SVNOutputOption.process_branch_commit`: start, `fill_symbol`, end. -/
def process_branch_commit (svn_commit : SVNSymbolCommit) : List MirrorCall :=
  [MirrorCall.startCommit svn_commit.revnum,
   MirrorCall.fillSymbol svn_commit.symbolName,
   MirrorCall.endCommit]

/-- `SVNOutputOption.process_tag_commit`: start, `fill_symbol`, end. -/
def process_tag_commit (svn_commit : SVNSymbolCommit) : List MirrorCall :=
  [MirrorCall.startCommit svn_commit.revnum,
   MirrorCall.fillSymbol svn_commit.symbolName,
   MirrorCall.endCommit]

/-- The operations the specification says a post-commit emits for one
contained `CVSRevision` (stated from the spec's words, for comparison
with `post_commit_rev_calls`): an Add yields a copy from the revision's
branch path to its trunk path at the motivating revnum; a Change yields a
delete of the trunk path followed by the same copy; a Delete yields a
delete of the trunk path; a Noop yields no mutation. -/
def spec_post_commit_ops (motivating_revnum : Nat) (cvs_rev : CVSRevision) :
    List MirrorCall :=
  match cvs_rev.kind with
  | RevKind.add =>
      [MirrorCall.copyPath cvs_rev.svnPath cvs_rev.trunkPath motivating_revnum true]
  | RevKind.change =>
      [MirrorCall.deletePath cvs_rev.trunkPath none,
       MirrorCall.copyPath cvs_rev.svnPath cvs_rev.trunkPath motivating_revnum true]
  | RevKind.delete => [MirrorCall.deletePath cvs_rev.trunkPath none]
  | RevKind.noop => []
  | RevKind.otherSubtype => []

/-- A mirror call that neither opens nor closes a commit. -/
def isNeutralCall : MirrorCall → Bool
  | MirrorCall.startCommit _ => false
  | MirrorCall.endCommit => false
  | _ => true

/-- A trace of mirror calls is a well-formed commit when it opens with a
single `start_commit`, closes with a single `end_commit`, and opens or
closes no commit in between. -/
def commitWellFormed (trace : List MirrorCall) : Bool :=
  match trace with
  | MirrorCall.startCommit _ :: rest =>
      rest.getLast? == some MirrorCall.endCommit &&
      rest.dropLast.all isNeutralCall
  | _ => false

end Cvs2svn

namespace Verify

/-! ## Embedding of `contrib/verify-cvs2svn.py`

File contents are byte lists, file modes are `Nat` (the `st_mode` word),
printed output is returned as strings, and uncaught Python exceptions are
`Except.error` values. -/

/-- Exceptions of the verifier script that escape to the caller. -/
inductive PyError where
  /-- Unpacking `value.split(":")` into two names failed. -/
  | valueError
  /-- An undefined global name was evaluated. -/
  | nameError (name : String)
  deriving DecidableEq, Repr

/-- The `Failures` counter object: `self.count`. -/
structure Failures where
  count : Nat
  deriving DecidableEq, Repr

/-- `Failures.report(summary, details)`: increment the count and return the
lines written to stdout.  It raises nothing and never aborts the run. -/
def Failures.report (failures : Failures) (summary : String)
    (details : Option (List String)) : Failures × List String :=
  ({ count := failures.count + 1 },
   ("*** ANOMALY: " ++ summary ++ "\n") ::
     (details.getD []).map (fun line => "***  " ++ line ++ "\n"))

/-- `Failures.__nonzero__`: `self.count > 0`. -/
def Failures.nonzero (failures : Failures) : Bool :=
  failures.count > 0

/-- The final statement of `main`: `sys.exit(failures and 1 or 0)`. -/
def mainExitCode (failures : Failures) : Nat :=
  if failures.nonzero then 1 else 0

/-- The chunked read loop of `file_compare`: both files are read 8192
bytes at a time; unequal chunks set `ok = False` (and report an anomaly);
the loop stops when the first file is exhausted. -/
def fileCompareLoop : List Nat → List Nat → Bool
  | [], contents2 => List.take 8192 contents2 == []
  | c :: rest, contents2 =>
      (List.take 8192 (c :: rest) == List.take 8192 contents2) &&
        fileCompareLoop (List.drop 8192 (c :: rest)) (List.drop 8192 contents2)
  termination_by contents1 _ => contents1.length
  decreasing_by simp [List.length_drop]; omega

/-- `file_compare`, as a predicate on the two files' stat modes and byte
contents: the files are reported identical (return value `1`) when the
modes masked with `0700` agree and the chunked content comparison found no
differing chunk.  Each failed test reports an anomaly on `failures`. -/
def file_compare (mode1 mode2 : Nat) (contents1 contents2 : List Nat) : Bool :=
  (mode1 &&& 0o700 == mode2 &&& 0o700) && fileCompareLoop contents1 contents2

/-- Whether `file_compare` reports a mode anomaly for stat modes `mode1`
and `mode2`: it compares `st_mode & 0700` on both sides. -/
def modeAnomalyReported (mode1 mode2 : Nat) : Bool :=
  !(mode1 &&& 0o700 == mode2 &&& 0o700)

/-! ### Symbol transforms

`transform_symbol` applies `pattern.sub(replacement, name)` for each
`--symbol-transform` rule in order.  Regular expressions are external to
the repository; the embedding models the literal-string fragment of the
dialect: a pattern with no metacharacters matches exactly its own text, and
`sub` replaces every non-overlapping occurrence from the left.  Names are
modelled as `List Char`. -/

/-- `pattern.sub(replacement, s)` for a literal pattern: replace each
non-overlapping occurrence of `pattern` in `s` by `replacement`, scanning
from the left. -/
def subLiteral (pattern replacement : List Char) : List Char → List Char
  | [] => []
  | c :: rest =>
      match pattern with
      | [] => c :: rest
      | p :: ps =>
          if List.isPrefixOf (p :: ps) (c :: rest) then
            replacement ++ subLiteral pattern replacement (List.drop (p :: ps).length (c :: rest))
          else
            c :: subLiteral pattern replacement rest
  termination_by s => s.length
  decreasing_by
    · simp [List.length_drop]; omega
    · simp

/-- One `--symbol-transform` rule of the verifier: a (literal) pattern and
its replacement. -/
abbrev TransformRule := List Char × List Char

/-- `transform_symbol(ctx, name)`: fold the rule list over the name; each
rule rebinds `name` to `pattern.sub(replacement, name)` when the
substitution changed it. -/
def transform_symbol (rules : List TransformRule) (name : List Char) : List Char :=
  rules.foldl
    (fun name rule =>
      let newname := subLiteral rule.1 rule.2 name
      if newname ≠ name then newname else name)
    name

/-! ### The `--symbol-transform` handling in `main` -/

/-- Python's `str.split(":")`: split on every colon, keeping empty parts. -/
def splitColon : List Char → List (List Char)
  | [] => [[]]
  | c :: rest =>
      let parts := splitColon rest
      if c = ':' then [] :: parts
      else
        match parts with
        | [] => [[c]]
        | h :: t => (c :: h) :: t

/-- The names bound at module level in `contrib/verify-cvs2svn.py`
(imports, constants, functions and classes), in source order.  These are
the global names visible inside `main`. -/
def verifyModuleGlobals : List String :=
  ["os", "sys", "optparse", "subprocess", "shutil", "re",
   "CVS_CMD", "SVN_CMD", "HG_CMD",
   "pipe", "cmd_failed",
   "CvsRepos", "SvnRepos", "HgRepos", "GitRepos",
   "transform_symbol", "Failures", "file_compare", "tree_compare",
   "verify_contents_single", "verify_contents",
   "OptionContext", "main"]

/-- The `for value in options.symbol_transforms` loop of `main`:
`[pattern, replacement] = value.split(":")` (a `ValueError` escapes when
the split does not yield exactly two parts), then
`RegexpSymbolTransform(pattern, replacement)` is evaluated — a lookup of
the global name `RegexpSymbolTransform`, raising `NameError` when it is
not among the module's globals.  Only `re.error` is caught. -/
def buildSymbolTransforms :
    List (List Char) → Except PyError (List TransformRule)
  | [] => Except.ok []
  | value :: rest =>
      match splitColon value with
      | [pattern, replacement] =>
          if verifyModuleGlobals.contains "RegexpSymbolTransform" then
            match buildSymbolTransforms rest with
            | Except.error e => Except.error e
            | Except.ok transforms => Except.ok ((pattern, replacement) :: transforms)
          else
            Except.error (PyError.nameError "RegexpSymbolTransform")
      | _ => Except.error PyError.valueError

/-- The portion of the verifier's `main` relevant to option handling: the
symbol-transform loop runs first (outside any `try`), and only afterwards
are the repositories opened and the comparisons run.  `runComparisons`
stands for everything after the loop; its result is the number of
comparisons performed.  An exception in the loop escapes before any
comparison runs. -/
def verifierMain (symbolTransformValues : List (List Char))
    (runComparisons : List TransformRule → Nat) : Except PyError Nat :=
  match buildSymbolTransforms symbolTransformValues with
  | Except.error e => Except.error e
  | Except.ok transforms => Except.ok (runComparisons transforms)

end Verify

namespace RunOpts

/-! ## Embedding of `cvs2svn_lib/run_options.py`

The option-parsing loop of `CommandLineRunOptions.__init__` is embedded in
two parts: the symbol-strategy options (which build the rule list, for
§4.4) and the resulting context flags together with the consistency
checks that follow the loop.  Python `None` / empty-string falsiness for
`ctx.target` and `ctx.fs_type` is modelled by using `String` with `""`
for an unset value. -/

open Cvs2svn (CvsError)

/-- The context flags set by the option loop that feed the consistency
checks (defaults as in `cvs2svn_lib/context.py`: all flags unset). -/
structure RunCtx where
  target : String := ""
  dump_only : Bool := false
  dry_run : Bool := false
  existing_svnrepos : Bool := false
  bdb_txn_nosync : Bool := false
  fs_type : String := ""
  quiet : Nat := 0
  verbose : Nat := 0
  deriving DecidableEq, Repr

/-- Python truthiness of a string option: non-empty. -/
def strTruthy (s : String) : Bool :=
  !s.isEmpty

/-- The message of the fatal error raised when the target path exists:
`"the svn-repos-path '%s' exists.\nRemove it, or pass
'--existing-svnrepos'." % target`. -/
def targetExistsMessage (target : String) : String :=
  "the svn-repos-path '" ++ target ++ "' exists.\n" ++
    "Remove it, or pass '--existing-svnrepos'."

/-- The local helper `not_both` of `CommandLineRunOptions.__init__`. -/
def not_both (opt1val : Bool) (opt1name : String) (opt2val : Bool)
    (opt2name : String) : Except CvsError Unit :=
  if opt1val && opt2val then
    Except.error (CvsError.fatal
      ("cannot pass both '" ++ opt1name ++ "' and '" ++ opt2name ++ "'."))
  else
    Except.ok ()

/-- Sequencing of two Python statements, each of which may raise: the
second runs only when the first did not raise. -/
def pyseq (first rest : Except CvsError Unit) : Except CvsError Unit :=
  match first with
  | Except.error e => Except.error e
  | Except.ok _ => rest

/-- The consistency checks of `CommandLineRunOptions.__init__` that follow
option parsing, in source order.  The filesystem is passed in as the
predicates `pathExists` (`os.path.exists`) and `isDir` (`os.path.isdir`);
`svnadminOk` tells whether `check_command_runs([svnadmin, 'help'], ...)`
succeeds (its failure message is abbreviated here). -/
def consistency_checks (ctx : RunCtx) (pathExists isDir : String → Bool)
    (svnadminOk : Bool) : Except CvsError Unit :=
  pyseq
    (if !strTruthy ctx.target && !ctx.dump_only && !ctx.dry_run then
      Except.error (CvsError.fatal "must pass one of '-s' or '--dump-only'.")
    else Except.ok ()) (
  pyseq (not_both (strTruthy ctx.target) "-s" ctx.dump_only "--dump-only") (
  pyseq (not_both ctx.dump_only "--dump-only"
          ctx.existing_svnrepos "--existing-svnrepos") (
  pyseq (not_both ctx.bdb_txn_nosync "--bdb-txn-nosync"
          ctx.existing_svnrepos "--existing-svnrepos") (
  pyseq (not_both ctx.dump_only "--dump-only"
          ctx.bdb_txn_nosync "--bdb-txn-nosync") (
  pyseq (not_both (ctx.quiet > 0) "-q" (ctx.verbose > 0) "-v") (
  pyseq (not_both (strTruthy ctx.fs_type) "--fs-type"
          ctx.existing_svnrepos "--existing-svnrepos") (
  pyseq
    (if strTruthy ctx.fs_type && ctx.fs_type ≠ "bdb" && ctx.bdb_txn_nosync then
      Except.error (CvsError.fatal
        ("cannot pass --bdb-txn-nosync with --fs-type=" ++ ctx.fs_type ++ "."))
    else Except.ok ()) (
  pyseq
    (if ctx.existing_svnrepos && !isDir ctx.target then
      Except.error (CvsError.fatal
        ("the svn-repos-path '" ++ ctx.target ++ "' is not an existing directory."))
    else Except.ok ()) (
  pyseq
    (if !ctx.dump_only && !ctx.existing_svnrepos && !ctx.dry_run &&
        pathExists ctx.target then
      Except.error (CvsError.fatal (targetExistsMessage ctx.target))
    else Except.ok ()) (
  if strTruthy ctx.target && !ctx.dry_run && !svnadminOk then
    Except.error (CvsError.fatal "svnadmin could not be executed.")
  else Except.ok ()))))))))))

/-- `RepositoryOutputOption.check` (from `output_option.py`): verify that
`svnadmin` can be executed, unless this is a dry run. -/
def repository_output_check (dryRun svnadminOk : Bool) : Except CvsError Unit :=
  if !dryRun && !svnadminOk then
    Except.error (CvsError.fatal "svnadmin could not be executed.")
  else
    Except.ok ()

/-- `NewRepositoryOutputOption.check`: the superclass check, then a fatal
error if the target path exists (unless this is a dry run). -/
def new_repository_output_check (dryRun svnadminOk : Bool) (target : String)
    (pathExists : String → Bool) : Except CvsError Unit :=
  pyseq (repository_output_check dryRun svnadminOk)
    (if !dryRun && pathExists target then
      Except.error (CvsError.fatal (targetExistsMessage target))
    else Except.ok ())

/-! ### Symbol-strategy rule list construction -/

/-- The rule objects added to `ctx.symbol_strategy`
(`cvs2svn_lib.symbol_strategy`).  Only their identity and regexp payload
matter for the construction order. -/
inductive StrategyRule where
  | forceBranchRegexp (regexp : String)
  | forceTagRegexp (regexp : String)
  | excludeRegexp (regexp : String)
  | unambiguousUsage
  | allBranch
  | allTag
  | branchIfCommits
  | heuristic
  deriving DecidableEq, Repr

/-- The command-line options that touch the symbol strategy, in the order
they appear on the command line.  `otherOption` stands for any option that
neither adds a rule nor sets `--symbol-default`. -/
inductive SymbolOpt where
  | forceBranch (regexp : String)
  | forceTag (regexp : String)
  | exclude (regexp : String)
  | symbolDefault (value : String)
  | otherOption
  deriving DecidableEq, Repr

/-- The values accepted by `--symbol-default`. -/
def validSymbolDefaults : List String :=
  ["branch", "tag", "heuristic", "strict"]

/-- The option loop of `CommandLineRunOptions.__init__` restricted to the
symbol-strategy options: `--force-branch`, `--force-tag` and `--exclude`
each append a rule immediately; `--symbol-default` validates its value
(fatal error otherwise) and overwrites `symbol_strategy_default`, whose
initial value is `'strict'`.  Returns the accumulated rule list and the
final default. -/
def symbol_option_loop :
    List SymbolOpt → List StrategyRule → String →
    Except CvsError (List StrategyRule × String)
  | [], rules, dflt => Except.ok (rules, dflt)
  | opt :: rest, rules, dflt =>
      match opt with
      | SymbolOpt.forceBranch regexp =>
          symbol_option_loop rest (rules ++ [StrategyRule.forceBranchRegexp regexp]) dflt
      | SymbolOpt.forceTag regexp =>
          symbol_option_loop rest (rules ++ [StrategyRule.forceTagRegexp regexp]) dflt
      | SymbolOpt.exclude regexp =>
          symbol_option_loop rest (rules ++ [StrategyRule.excludeRegexp regexp]) dflt
      | SymbolOpt.symbolDefault value =>
          if value ∉ validSymbolDefaults then
            Except.error (CvsError.fatal
              ("'" ++ value ++ "' is not a valid option for --symbol_default."))
          else
            symbol_option_loop rest rules value
      | SymbolOpt.otherOption =>
          symbol_option_loop rest rules dflt

/-- The rules appended after the consistency checks: first
`UnambiguousUsageRule()`, then the rules implied by
`symbol_strategy_default` (`assert False` for any other value is modelled
as an internal error). -/
def default_strategy_rules (dflt : String) : Except CvsError (List StrategyRule) :=
  if dflt = "strict" then
    Except.ok []
  else if dflt = "branch" then
    Except.ok [StrategyRule.allBranch]
  else if dflt = "tag" then
    Except.ok [StrategyRule.allTag]
  else if dflt = "heuristic" then
    Except.ok [StrategyRule.branchIfCommits, StrategyRule.heuristic]
  else
    Except.error (CvsError.internal "assert False")

/-- The full symbol-strategy rule list built by
`CommandLineRunOptions.__init__`: the option loop's rules, then
`UnambiguousUsageRule`, then the default-dependent rules. -/
def build_symbol_strategy (opts : List SymbolOpt) :
    Except CvsError (List StrategyRule) :=
  match symbol_option_loop opts [] "strict" with
  | Except.error e => Except.error e
  | Except.ok (rules, dflt) =>
      match default_strategy_rules dflt with
      | Except.error e => Except.error e
      | Except.ok tailRules =>
          Except.ok (rules ++ [StrategyRule.unambiguousUsage] ++ tailRules)

/-- The user rules contributed by a command line, in order. -/
def userRules (opts : List SymbolOpt) : List StrategyRule :=
  opts.filterMap (fun opt =>
    match opt with
    | SymbolOpt.forceBranch regexp => some (StrategyRule.forceBranchRegexp regexp)
    | SymbolOpt.forceTag regexp => some (StrategyRule.forceTagRegexp regexp)
    | SymbolOpt.exclude regexp => some (StrategyRule.excludeRegexp regexp)
    | _ => none)

/-- The value of `symbol_strategy_default` after processing `opts`,
starting from `dflt`: the last `--symbol-default` value wins. -/
def lastSymbolDefaultFrom (dflt : String) (opts : List SymbolOpt) : String :=
  opts.foldl
    (fun dflt opt =>
      match opt with
      | SymbolOpt.symbolDefault value => value
      | _ => dflt)
    dflt

/-- The value of `symbol_strategy_default` after the loop: the last
`--symbol-default` value, or `'strict'` when none was passed. -/
def lastSymbolDefault (opts : List SymbolOpt) : String :=
  lastSymbolDefaultFrom "strict" opts

/-- The rules the claim says `--symbol-default` implies: none for
`strict`, a single all-branch or all-tag rule for `branch` / `tag`,
branch-if-commits followed by heuristic for `heuristic`. -/
def symbolDefaultRules (dflt : String) : List StrategyRule :=
  if dflt = "strict" then []
  else if dflt = "branch" then [StrategyRule.allBranch]
  else if dflt = "tag" then [StrategyRule.allTag]
  else if dflt = "heuristic" then [StrategyRule.branchIfCommits, StrategyRule.heuristic]
  else []

/-- Modelled from the spec: the rule evaluation of
`RuleBasedSymbolStrategy` (`cvs2svn_lib/symbol_strategy.py` is not part of
the sources).  Per §4.4, "Rules are evaluated in order; the first rule
that returns a classification wins"; `evalRule` gives each rule's answer
on a symbol's statistics. -/
def rules_classify {Stats Classification : Type}
    (evalRule : StrategyRule → Stats → Option Classification) :
    List StrategyRule → Stats → Option Classification
  | [], _ => none
  | rule :: rest, stats =>
      match evalRule rule stats with
      | some classification => some classification
      | none => rules_classify evalRule rest stats

end RunOpts

namespace NewRepo

/-! ## `NewRepositoryOutputOption.setup` and `.cleanup` -/

open Cvs2svn (CvsError)

/-- The `ValueError` raised by `list.index` when the element is absent. -/
inductive PyListError where
  | valueError
  deriving DecidableEq, Repr

/-- The line commented out by `NewRepositoryOutputOption.cleanup`. -/
def noSyncLine : String := "set_flags DB_TXN_NOSYNC\n"

/-- The `svnadmin create` invocation built by
`NewRepositoryOutputOption.setup` (none on a dry run).  `fsType` is
`ctx.fs_type`, with `""` for unset. -/
def svnadmin_create_command (dryRun : Bool) (fsType svnadmin target : String) :
    Option String :=
  if dryRun then
    none
  else if fsType = "" then
    some (svnadmin ++ " create " ++ "--bdb-txn-nosync" ++ " \"" ++ target ++ "\"")
  else if fsType = "bdb" then
    some (svnadmin ++ " create " ++ "--fs-type=bdb" ++ " " ++ "--bdb-txn-nosync"
      ++ " \"" ++ target ++ "\"")
  else
    some (svnadmin ++ " create " ++ "--fs-type=" ++ fsType ++ " \"" ++ target ++ "\"")

/-- `NewRepositoryOutputOption.cleanup`, restricted to its effect on
`db/DB_CONFIG`.  `dbConfig` is the file's list of lines (`readlines`), or
`none` when `os.path.exists` is false for it.  When the run is not a dry
run, the user did not pass `--bdb-txn-nosync`, and the file exists, the
first `set_flags DB_TXN_NOSYNC` line is replaced by a commented copy
(`contents.index` raises `ValueError` when the line is absent); in every
other case the file is untouched. -/
def cleanup_db_config (dryRun bdbTxnNosync : Bool)
    (dbConfig : Option (List String)) :
    Except PyListError (Option (List String)) :=
  if dryRun then
    Except.ok dbConfig
  else
    match dbConfig with
    | none => Except.ok none
    | some contents =>
        if !bdbTxnNosync then
          match contents.indexOf? noSyncLine with
          | some index => Except.ok (some (contents.set index ("# " ++ noSyncLine)))
          | none => Except.error PyListError.valueError
        else
          Except.ok (some contents)

end NewRepo

/-! ## Theorems -/

namespace Cvs2svn

theorem post_commit_loop_ok (motivating_revnum : Nat) (revs : List CVSRevision)
    (h : ∀ rev ∈ revs, rev.kind ≠ RevKind.otherSubtype) :
    post_commit_loop motivating_revnum revs =
      Except.ok (revs.flatMap (spec_post_commit_ops motivating_revnum)) := by
  induction revs with
  | nil => rfl
  | cons rev rest ih =>
      have hrev : rev.kind ≠ RevKind.otherSubtype := h rev (List.mem_cons_self rev rest)
      have hrest : ∀ r ∈ rest, r.kind ≠ RevKind.otherSubtype :=
        fun r hr => h r (List.mem_cons_of_mem rev hr)
      cases hk : rev.kind <;>
        simp [post_commit_loop, post_commit_rev_calls, hk, ih hrest,
          spec_post_commit_ops]
      exact absurd hk hrev

/-- C1: for every post-commit changeset whose contained revisions are all
of the four known subtypes, the SVN output option emits, inside one
commit, exactly the operations that mirror the default-branch change onto
trunk: per contained revision, an Add yields a copy from the revision's
branch path to its trunk path with the motivating changeset's revnum as
copy source; a Change yields a delete of the trunk path followed by the
same copy; a Delete yields a delete of the trunk path; a Noop yields no
mutation. -/
theorem c1_post_commit_mirrors_default_branch (svn_commit : SVNPostCommit)
    (h : ∀ rev ∈ svn_commit.cvs_revs, rev.kind ≠ RevKind.otherSubtype) :
    process_post_commit svn_commit =
      Except.ok (MirrorCall.startCommit svn_commit.revnum ::
        svn_commit.cvs_revs.flatMap
          (spec_post_commit_ops svn_commit.motivating_revnum) ++
        [MirrorCall.endCommit]) := by
  simp [process_post_commit, post_commit_loop_ok svn_commit.motivating_revnum _ h]

/-- Witness for C1 at a post-commit containing one revision of each kind. -/
theorem c1_post_commit_mirrors_default_branch_witness :
    process_post_commit
        ⟨4, 3,
         [⟨RevKind.add, "branches/vendor/a", "trunk/a"⟩,
          ⟨RevKind.change, "branches/vendor/b", "trunk/b"⟩,
          ⟨RevKind.delete, "branches/vendor/c", "trunk/c"⟩,
          ⟨RevKind.noop, "branches/vendor/d", "trunk/d"⟩]⟩ =
      Except.ok (MirrorCall.startCommit 4 ::
        ([⟨RevKind.add, "branches/vendor/a", "trunk/a"⟩,
          ⟨RevKind.change, "branches/vendor/b", "trunk/b"⟩,
          ⟨RevKind.delete, "branches/vendor/c", "trunk/c"⟩,
          ⟨RevKind.noop, "branches/vendor/d", "trunk/d"⟩] :
            List CVSRevision).flatMap (spec_post_commit_ops 3) ++
        [MirrorCall.endCommit]) :=
  c1_post_commit_mirrors_default_branch _ (by decide)

theorem post_commit_loop_error (motivating_revnum : Nat) (revs : List CVSRevision)
    (h : ∃ rev ∈ revs, rev.kind = RevKind.otherSubtype) :
    post_commit_loop motivating_revnum revs =
      Except.error (CvsError.internal "Unexpected CVSRevision type") := by
  induction revs with
  | nil => simp at h
  | cons rev rest ih =>
      by_cases hk : rev.kind = RevKind.otherSubtype
      · simp [post_commit_loop, post_commit_rev_calls, hk]
      · obtain ⟨r, hr, hkr⟩ := h
        rcases List.mem_cons.mp hr with rfl | hr'
        · exact absurd hkr hk
        · cases hk' : rev.kind <;>
            simp [post_commit_loop, post_commit_rev_calls, hk', ih ⟨r, hr', hkr⟩]

/-- C3 counterexample: a primary commit containing a revision of an
unexpected subtype is processed without raising anything — the item is
silently ignored, and the trace is the same as for an empty commit —
contradicting the claim that primary-commit processing raises an
internal error on such items. -/
theorem c3_counterexample_primary_silently_ignores :
    process_primary_commit true ⟨5, [⟨RevKind.otherSubtype, "trunk/a", "trunk/a"⟩]⟩ =
        [MirrorCall.startCommit 5, MirrorCall.endCommit] ∧
    process_primary_commit true ⟨5, [⟨RevKind.otherSubtype, "trunk/a", "trunk/a"⟩]⟩ =
        process_primary_commit true ⟨5, []⟩ :=
  ⟨rfl, rfl⟩

/-- C3 amended: only post-commit processing raises an internal error
(indicating a bug) when a contained revision is of a subtype other than
Add, Change, Delete, or Noop; primary-commit processing silently ignores
such an item (it contributes no mirror operation and no error). -/
theorem c3_amended_unknown_subtype_handling :
    (∀ svn_commit : SVNPostCommit,
        (∃ rev ∈ svn_commit.cvs_revs, rev.kind = RevKind.otherSubtype) →
        process_post_commit svn_commit =
          Except.error (CvsError.internal "Unexpected CVSRevision type")) ∧
    (∀ (prune : Bool) (rev : CVSRevision), rev.kind = RevKind.otherSubtype →
        primary_commit_rev_calls prune rev = []) := by
  constructor
  · intro svn_commit h
    simp [process_post_commit,
      post_commit_loop_error svn_commit.motivating_revnum _ h]
  · intro prune rev h
    simp [primary_commit_rev_calls, h]

/-- Witness for C3's amended claim. -/
theorem c3_amended_unknown_subtype_handling_witness :
    process_post_commit ⟨7, 6, [⟨RevKind.otherSubtype, "p", "t"⟩]⟩ =
        Except.error (CvsError.internal "Unexpected CVSRevision type") ∧
    primary_commit_rev_calls true ⟨RevKind.otherSubtype, "p", "t"⟩ = [] :=
  ⟨c3_amended_unknown_subtype_handling.1 _
      ⟨⟨RevKind.otherSubtype, "p", "t"⟩, by simp, rfl⟩,
   c3_amended_unknown_subtype_handling.2 true _ rfl⟩

theorem commitWellFormed_of_neutral (revnum : Nat) (body : List MirrorCall)
    (h : ∀ c ∈ body, isNeutralCall c = true) :
    commitWellFormed (MirrorCall.startCommit revnum :: body ++ [MirrorCall.endCommit]) =
      true := by
  simp [commitWellFormed, List.getLast?_concat, List.dropLast_concat,
    List.all_eq_true]
  exact h

theorem post_commit_loop_neutral (motivating_revnum : Nat)
    (revs : List CVSRevision) (body : List MirrorCall)
    (h : post_commit_loop motivating_revnum revs = Except.ok body) :
    ∀ c ∈ body, isNeutralCall c = true := by
  induction revs generalizing body with
  | nil =>
      simp [post_commit_loop] at h
      subst h
      simp
  | cons rev rest ih =>
      rw [post_commit_loop] at h
      cases hcalls : post_commit_rev_calls motivating_revnum rev with
      | error e => rw [hcalls] at h; exact absurd h (by simp)
      | ok calls =>
          rw [hcalls] at h
          cases hloop : post_commit_loop motivating_revnum rest with
          | error e => rw [hloop] at h; exact absurd h (by simp)
          | ok restCalls =>
              rw [hloop] at h
              have hb : body = calls ++ restCalls := by
                cases h; rfl
              subst hb
              intro c hc
              rcases List.mem_append.mp hc with hc' | hc'
              · cases hk : rev.kind <;>
                  rw [post_commit_rev_calls, hk] at hcalls <;>
                  cases hcalls <;>
                  simp only [List.mem_singleton, List.mem_cons,
                    List.not_mem_nil, or_false] at hc' <;>
                  first
                    | exact hc'.elim
                    | (rcases hc' with rfl | rfl <;> rfl)
              · exact ih restCalls hloop c hc'

/-- C9: each of the five commit-processing operations of the SVN output
option opens exactly one commit via `start_commit`, closes it via
`end_commit` before returning, and neither opens nor closes a commit in
between (so between two processed commits none is open and during
processing exactly one is open).  For post commits this holds for every
processing that returns (does not raise). -/
theorem c9_commit_bracketing :
    (∀ (trunkOnly : Bool) (svn_commit : SVNInitialProjectCommit),
        commitWellFormed (process_initial_project_commit trunkOnly svn_commit) = true) ∧
    (∀ (prune : Bool) (svn_commit : SVNPrimaryCommit),
        commitWellFormed (process_primary_commit prune svn_commit) = true) ∧
    (∀ (svn_commit : SVNPostCommit) (trace : List MirrorCall),
        process_post_commit svn_commit = Except.ok trace →
        commitWellFormed trace = true) ∧
    (∀ svn_commit : SVNSymbolCommit,
        commitWellFormed (process_branch_commit svn_commit) = true) ∧
    (∀ svn_commit : SVNSymbolCommit,
        commitWellFormed (process_tag_commit svn_commit) = true) := by
  refine ⟨?_, ?_, ?_, ?_, ?_⟩
  · intro trunkOnly svn_commit
    apply commitWellFormed_of_neutral
    intro c hc
    rw [List.mem_flatMap] at hc
    obtain ⟨project, _, hp⟩ := hc
    rw [List.mem_append] at hp
    rcases hp with hp | hp <;> split_ifs at hp <;> simp at hp <;>
      rcases hp with rfl | rfl <;> rfl
  · intro prune svn_commit
    apply commitWellFormed_of_neutral
    intro c hc
    rw [List.mem_flatMap] at hc
    obtain ⟨rev, _, hr⟩ := hc
    cases hk : rev.kind <;>
      rw [primary_commit_rev_calls, hk] at hr <;>
      simp_all [isNeutralCall]
  · intro svn_commit trace h
    rw [process_post_commit] at h
    cases hloop : post_commit_loop svn_commit.motivating_revnum svn_commit.cvs_revs with
    | error e => rw [hloop] at h; exact absurd h (by simp)
    | ok body =>
        rw [hloop] at h
        have hb : trace =
            MirrorCall.startCommit svn_commit.revnum :: body ++ [MirrorCall.endCommit] := by
          cases h; rfl
        subst hb
        exact commitWellFormed_of_neutral _ _
          (post_commit_loop_neutral _ _ _ hloop)
  · intro svn_commit; rfl
  · intro svn_commit; rfl

/-- Witness for C9 at concrete commits of each of the five kinds. -/
theorem c9_commit_bracketing_witness :
    commitWellFormed
        (process_initial_project_commit false ⟨1, [⟨"trunk", "branches", "tags"⟩]⟩) = true ∧
    commitWellFormed
        (process_primary_commit true ⟨2, [⟨RevKind.add, "trunk/a", "trunk/a"⟩]⟩) = true ∧
    commitWellFormed
        [MirrorCall.startCommit 3,
         MirrorCall.copyPath "branches/vendor/a" "trunk/a" 2 true,
         MirrorCall.endCommit] = true ∧
    commitWellFormed (process_branch_commit ⟨4, "B"⟩) = true ∧
    commitWellFormed (process_tag_commit ⟨5, "REL_1"⟩) = true :=
  ⟨c9_commit_bracketing.1 false _,
   c9_commit_bracketing.2.1 true _,
   c9_commit_bracketing.2.2.1 ⟨3, 2, [⟨RevKind.add, "branches/vendor/a", "trunk/a"⟩]⟩ _ rfl,
   c9_commit_bracketing.2.2.2.1 _,
   c9_commit_bracketing.2.2.2.2 _⟩

end Cvs2svn

namespace Verify

theorem eq_iff_take_drop (n : Nat) (l1 l2 : List Nat) :
    l1 = l2 ↔ (l1.take n = l2.take n ∧ l1.drop n = l2.drop n) := by
  constructor
  · rintro rfl; exact ⟨rfl, rfl⟩
  · rintro ⟨h1, h2⟩
    rw [← List.take_append_drop n l1, h1, h2, List.take_append_drop]

theorem fileCompareLoop_eq (c1 c2 : List Nat) :
    fileCompareLoop c1 c2 = (c1 == c2) := by
  induction c1, c2 using fileCompareLoop.induct with
  | case1 c2 =>
      rw [fileCompareLoop]
      cases c2 with
      | nil => rfl
      | cons b l =>
          rw [Bool.eq_iff_iff]
          simp [List.take_eq_nil_iff]
  | case2 c rest c2 ih =>
      rw [fileCompareLoop, ih, Bool.eq_iff_iff]
      simp only [Bool.and_eq_true, beq_iff_eq]
      exact (eq_iff_take_drop 8192 (c :: rest) c2).symm

/-- C2 counterexample: two empty files whose stat modes are `0600` and
`0400` have equal contents and agree on the owner-executable flag, yet
`file_compare` does not report them identical — it masks the modes with
`0700`, so differing owner read/write bits also produce an anomaly. -/
theorem c2_counterexample_owner_rw_bits_reported :
    ¬ (file_compare 0o600 0o400 [] [] = true ↔
        ((0o600 : Nat) &&& 0o100 = (0o400 : Nat) &&& 0o100 ∧
          ([] : List Nat) = [])) := by
  have hfc : file_compare 0o600 0o400 [] [] = false := by
    rw [file_compare, fileCompareLoop]
    decide
  intro h
  have htrue := h.mpr ⟨by decide, rfl⟩
  rw [hfc] at htrue
  exact absurd htrue (by decide)

/-- C2 amended: the verifier reports two files identical exactly when
their byte contents are equal and their stat modes agree after masking
with `0700` — the owner read, write, and execute bits; permission bits
outside the owner triad never cause an anomaly report. -/
theorem c2_amended_file_compare_iff (mode1 mode2 : Nat)
    (contents1 contents2 : List Nat) :
    file_compare mode1 mode2 contents1 contents2 = true ↔
      (mode1 &&& 0o700 = mode2 &&& 0o700 ∧ contents1 = contents2) := by
  rw [file_compare, fileCompareLoop_eq]
  simp only [Bool.and_eq_true, beq_iff_eq]

/-- C4: a reported anomaly only increments the counter (and yields the
printed summary lines) — it never aborts — and the verifier's exit code
is non-zero exactly when the final anomaly count is non-zero, and is
always 0 or 1. -/
theorem c4_verifier_anomalies_never_abort :
    (∀ (failures : Failures) (summary : String) (details : Option (List String)),
        ((failures.report summary details).1.count = failures.count + 1) ∧
        ((failures.report summary details).2.head? =
          some ("*** ANOMALY: " ++ summary ++ "\n"))) ∧
    (∀ failures : Failures, mainExitCode failures ≠ 0 ↔ failures.count ≠ 0) ∧
    (∀ failures : Failures,
        mainExitCode failures = 0 ∨ mainExitCode failures = 1) := by
  refine ⟨?_, ?_, ?_⟩
  · intro failures summary details
    exact ⟨rfl, rfl⟩
  · intro failures
    rcases Nat.eq_zero_or_pos failures.count with h | h
    · simp [mainExitCode, Failures.nonzero, h]
    · simp [mainExitCode, Failures.nonzero, h, Nat.pos_iff_ne_zero.mp h]
  · intro failures
    rcases Nat.eq_zero_or_pos failures.count with h | h <;>
      simp [mainExitCode, Failures.nonzero, h]

theorem transform_symbol_fixed (rules : List TransformRule) (name : List Char)
    (h : ∀ rule ∈ rules, subLiteral rule.1 rule.2 name = name) :
    transform_symbol rules name = name := by
  induction rules with
  | nil => rfl
  | cons rule rest ih =>
      have hrule : subLiteral rule.1 rule.2 name = name :=
        h rule (List.mem_cons_self rule rest)
      have hrest : ∀ r ∈ rest, subLiteral r.1 r.2 name = name :=
        fun r hr => h r (List.mem_cons_of_mem rule hr)
      unfold transform_symbol
      rw [List.foldl_cons]
      have hstep :
          (let newname := subLiteral rule.1 rule.2 name
           if newname ≠ name then newname else name) = name := by
        simp [hrule]
      rw [hstep]
      exact ih hrest

/-- C7 counterexample: the single transform rule `a → aa` (a legal rule
whose pattern is the literal regexp `a`) is not idempotent: applied to the
name `a` once it yields `aa`, applied again it yields `aaaa`. -/
theorem c7_counterexample_transform_not_idempotent :
    transform_symbol [(['a'], ['a', 'a'])]
        (transform_symbol [(['a'], ['a', 'a'])] ['a']) ≠
      transform_symbol [(['a'], ['a', 'a'])] ['a'] := by
  have h1 : transform_symbol [(['a'], ['a', 'a'])] ['a'] = ['a', 'a'] := by
    simp [transform_symbol, subLiteral, List.isPrefixOf]
  have h2 : transform_symbol [(['a'], ['a', 'a'])] ['a', 'a'] =
      ['a', 'a', 'a', 'a'] := by
    simp [transform_symbol, subLiteral, List.isPrefixOf]
  rw [h1, h2]
  simp

/-- C7 amended: the transform list is a no-op on an already-transformed
name whenever each rule's substitution leaves that transformed name
unchanged (as with anchored rules like `^RELEASE_(.*)$ → rel-\1`, whose
replacement no pattern matches); in general a rule whose replacement
re-contains its pattern makes a second application change the name again. -/
theorem c7_amended_transform_idempotent_on_fixed_names
    (rules : List TransformRule) (name : List Char)
    (h : ∀ rule ∈ rules,
        subLiteral rule.1 rule.2 (transform_symbol rules name) =
          transform_symbol rules name) :
    transform_symbol rules (transform_symbol rules name) =
      transform_symbol rules name :=
  transform_symbol_fixed rules (transform_symbol rules name) h

/-- Witness for C7's amended claim at the rule `aa → b` and name `aa`. -/
theorem c7_amended_transform_idempotent_on_fixed_names_witness :
    transform_symbol [(['a', 'a'], ['b'])]
        (transform_symbol [(['a', 'a'], ['b'])] ['a', 'a']) =
      transform_symbol [(['a', 'a'], ['b'])] ['a', 'a'] :=
  c7_amended_transform_idempotent_on_fixed_names [(['a', 'a'], ['b'])] ['a', 'a']
    (by
      intro rule hr
      simp only [List.mem_singleton] at hr
      subst hr
      simp [transform_symbol, subLiteral, List.isPrefixOf])

/-- C10: an invocation of the verifier passing at least one
`--symbol-transform P:S` option (each passed value having exactly one
colon) fails with an uncaught `NameError` before any comparison runs,
because the name `RegexpSymbolTransform` it instantiates is not among the
module's global names; the option can never take effect. -/
theorem c10_symbol_transform_raises_name_error
    (values : List (List Char)) (runComparisons : List TransformRule → Nat)
    (hne : values ≠ [])
    (hwf : ∀ v ∈ values, (splitColon v).length = 2) :
    verifierMain values runComparisons =
        Except.error (PyError.nameError "RegexpSymbolTransform") ∧
      verifyModuleGlobals.contains "RegexpSymbolTransform" = false := by
  have hc : verifyModuleGlobals.contains "RegexpSymbolTransform" = false := by
    decide
  refine ⟨?_, hc⟩
  cases values with
  | nil => exact absurd rfl hne
  | cons v rest =>
      obtain ⟨a, b, hab⟩ :=
        List.length_eq_two.mp (hwf v (List.mem_cons_self v rest))
      have hbuild : buildSymbolTransforms (v :: rest) =
          Except.error (PyError.nameError "RegexpSymbolTransform") := by
        rw [buildSymbolTransforms, hab, hc]
        rfl
      rw [verifierMain, hbuild]

/-- Witness for C10 at the single option value `P:S`. -/
theorem c10_symbol_transform_raises_name_error_witness :
    verifierMain [['P', ':', 'S']] (fun _ => 0) =
        Except.error (PyError.nameError "RegexpSymbolTransform") ∧
      verifyModuleGlobals.contains "RegexpSymbolTransform" = false :=
  c10_symbol_transform_raises_name_error [['P', ':', 'S']] (fun _ => 0)
    (by simp)
    (by
      intro v hv
      simp only [List.mem_singleton] at hv
      subst hv
      rfl)

end Verify

namespace RunOpts

open Cvs2svn (CvsError)

/-- C5 counterexample: a run with an existing target (`pathExists` is
constantly true), no `--existing-svnrepos`, no `--dump-only` and no
`--dry-run`, but passing both `-q` and `-v`, aborts with a different
fatal error that does not name the existing path — the quiet/verbose
conflict is checked first. -/
theorem c5_counterexample_earlier_check_wins :
    consistency_checks { target := "repo", quiet := 1, verbose := 1 }
        (fun _ => true) (fun _ => true) true =
        Except.error (CvsError.fatal "cannot pass both '-q' and '-v'.") ∧
      "cannot pass both '-q' and '-v'." ≠ targetExistsMessage "repo" := by
  constructor
  · rfl
  · decide

/-- C5 amended: when a target path is given, the path exists,
`--existing-svnrepos` is not passed, neither `--dump-only` nor
`--dry-run` is in effect, and no earlier consistency check fails first
(`-q` with `-v`, or a non-bdb `--fs-type` with `--bdb-txn-nosync`),
option checking raises a fatal error naming the existing path; the same
fatal error is raised by `NewRepositoryOutputOption.check`. -/
theorem c5_amended_target_exists_fatal :
    (∀ (ctx : RunCtx) (pathExists isDir : String → Bool) (svnadminOk : Bool),
        strTruthy ctx.target = true →
        pathExists ctx.target = true →
        ctx.existing_svnrepos = false →
        ctx.dump_only = false →
        ctx.dry_run = false →
        (ctx.quiet = 0 ∨ ctx.verbose = 0) →
        (strTruthy ctx.fs_type = false ∨ ctx.fs_type = "bdb" ∨
          ctx.bdb_txn_nosync = false) →
        consistency_checks ctx pathExists isDir svnadminOk =
          Except.error (CvsError.fatal (targetExistsMessage ctx.target))) ∧
    (∀ (target : String) (pathExists : String → Bool),
        pathExists target = true →
        new_repository_output_check false true target pathExists =
          Except.error (CvsError.fatal (targetExistsMessage target))) := by
  constructor
  · intro ctx pathExists isDir svnadminOk htarget hexists hexisting hdump hdry hqv hfs
    rcases hqv with hq | hq <;> rcases hfs with hf | hf | hf <;>
      simp [consistency_checks, pyseq, not_both, htarget, hexists, hexisting,
        hdump, hdry, hq, hf]
  · intro target pathExists hexists
    simp [new_repository_output_check, repository_output_check, pyseq, hexists]

/-- Witness for C5's amended claim at a concrete context. -/
theorem c5_amended_target_exists_fatal_witness :
    consistency_checks { target := "repo" } (fun _ => true) (fun _ => true) true =
        Except.error (CvsError.fatal (targetExistsMessage
          (RunCtx.target { target := "repo" }))) ∧
      new_repository_output_check false true "repo" (fun _ => true) =
        Except.error (CvsError.fatal (targetExistsMessage "repo")) :=
  ⟨c5_amended_target_exists_fatal.1 { target := "repo" } (fun _ => true)
      (fun _ => true) true rfl rfl rfl rfl rfl (Or.inl rfl) (Or.inl rfl),
   c5_amended_target_exists_fatal.2 "repo" (fun _ => true) rfl⟩

theorem symbol_option_loop_ok (opts : List SymbolOpt) (acc : List StrategyRule)
    (dflt : String)
    (h : ∀ value, SymbolOpt.symbolDefault value ∈ opts → value ∈ validSymbolDefaults) :
    symbol_option_loop opts acc dflt =
      Except.ok (acc ++ userRules opts, lastSymbolDefaultFrom dflt opts) := by
  induction opts generalizing acc dflt with
  | nil => simp [symbol_option_loop, userRules, lastSymbolDefaultFrom]
  | cons opt rest ih =>
      have hrest : ∀ value, SymbolOpt.symbolDefault value ∈ rest →
          value ∈ validSymbolDefaults :=
        fun value hv => h value (List.mem_cons_of_mem opt hv)
      cases opt with
      | forceBranch regexp =>
          simp [symbol_option_loop, ih _ _ hrest, userRules,
            lastSymbolDefaultFrom, List.filterMap_cons]
      | forceTag regexp =>
          simp [symbol_option_loop, ih _ _ hrest, userRules,
            lastSymbolDefaultFrom, List.filterMap_cons]
      | exclude regexp =>
          simp [symbol_option_loop, ih _ _ hrest, userRules,
            lastSymbolDefaultFrom, List.filterMap_cons]
      | symbolDefault value =>
          have hval : value ∈ validSymbolDefaults :=
            h value (List.mem_cons_self _ _)
          rw [symbol_option_loop, if_neg (not_not_intro hval)]
          simp [ih _ _ hrest, userRules, lastSymbolDefaultFrom,
            List.filterMap_cons]
      | otherOption =>
          simp [symbol_option_loop, ih _ _ hrest, userRules,
            lastSymbolDefaultFrom, List.filterMap_cons]

theorem lastSymbolDefaultFrom_valid (dflt : String) (opts : List SymbolOpt)
    (hd : dflt ∈ validSymbolDefaults)
    (h : ∀ value, SymbolOpt.symbolDefault value ∈ opts → value ∈ validSymbolDefaults) :
    lastSymbolDefaultFrom dflt opts ∈ validSymbolDefaults := by
  induction opts generalizing dflt with
  | nil => exact hd
  | cons opt rest ih =>
      have hrest : ∀ value, SymbolOpt.symbolDefault value ∈ rest →
          value ∈ validSymbolDefaults :=
        fun value hv => h value (List.mem_cons_of_mem opt hv)
      cases opt with
      | symbolDefault value =>
          exact ih value (h value (List.mem_cons_self _ _)) hrest
      | forceBranch regexp => exact ih dflt hd hrest
      | forceTag regexp => exact ih dflt hd hrest
      | exclude regexp => exact ih dflt hd hrest
      | otherOption => exact ih dflt hd hrest

theorem default_strategy_rules_ok (dflt : String)
    (hd : dflt ∈ validSymbolDefaults) :
    default_strategy_rules dflt = Except.ok (symbolDefaultRules dflt) := by
  simp only [validSymbolDefaults, List.mem_cons, List.mem_singleton,
    List.not_mem_nil, or_false] at hd
  rcases hd with rfl | rfl | rfl | rfl <;> rfl

theorem lastSymbolDefaultFrom_no_default (dflt : String) (opts : List SymbolOpt)
    (h : ∀ value, SymbolOpt.symbolDefault value ∉ opts) :
    lastSymbolDefaultFrom dflt opts = dflt := by
  induction opts generalizing dflt with
  | nil => rfl
  | cons opt rest ih =>
      have hrest : ∀ value, SymbolOpt.symbolDefault value ∉ rest :=
        fun value hv => h value (List.mem_cons_of_mem opt hv)
      cases opt with
      | symbolDefault value =>
          exact absurd (List.mem_cons_self _ _) (h value)
      | forceBranch regexp => exact ih dflt hrest
      | forceTag regexp => exact ih dflt hrest
      | exclude regexp => exact ih dflt hrest
      | otherOption => exact ih dflt hrest

/-- C8: for every command line whose `--symbol-default` values are all
valid, the symbol strategy's rule list is the user's force-branch,
force-tag and exclude rules in command-line order, then the
unambiguous-usage rule, then the rules implied by the last
`--symbol-default` (none for `strict`, all-branch / all-tag for
`branch` / `tag`, branch-if-commits then heuristic for `heuristic`);
`strict` is the default when no `--symbol-default` is passed; and
evaluation returns the first rule's classification when the first rule
decides, otherwise defers to the remaining rules in order. -/
theorem c8_symbol_strategy_rule_order (opts : List SymbolOpt)
    (h : ∀ value, SymbolOpt.symbolDefault value ∈ opts → value ∈ validSymbolDefaults) :
    build_symbol_strategy opts =
        Except.ok (userRules opts ++ [StrategyRule.unambiguousUsage] ++
          symbolDefaultRules (lastSymbolDefault opts)) ∧
      (∀ opts2 : List SymbolOpt,
          (∀ value, SymbolOpt.symbolDefault value ∉ opts2) →
          lastSymbolDefault opts2 = "strict") ∧
      (∀ {Stats Classification : Type}
          (evalRule : StrategyRule → Stats → Option Classification)
          (rule : StrategyRule) (rest : List StrategyRule) (stats : Stats),
          rules_classify evalRule (rule :: rest) stats =
            match evalRule rule stats with
            | some classification => some classification
            | none => rules_classify evalRule rest stats) := by
  refine ⟨?_, ?_, ?_⟩
  · simp [build_symbol_strategy, symbol_option_loop_ok opts [] "strict" h,
      default_strategy_rules_ok (lastSymbolDefaultFrom "strict" opts)
        (lastSymbolDefaultFrom_valid "strict" opts (by decide) h),
      lastSymbolDefault]
  · intro opts2 h2
    exact lastSymbolDefaultFrom_no_default "strict" opts2 h2
  · intro Stats Classification evalRule rule rest stats
    rfl

/-- Witness for C8 at a concrete command line mixing user rules with a
`--symbol-default=heuristic`. -/
theorem c8_symbol_strategy_rule_order_witness :
    build_symbol_strategy
        [SymbolOpt.forceBranch "B.*", SymbolOpt.exclude "X.*",
         SymbolOpt.symbolDefault "heuristic", SymbolOpt.forceTag "T.*"] =
      Except.ok (userRules
          [SymbolOpt.forceBranch "B.*", SymbolOpt.exclude "X.*",
           SymbolOpt.symbolDefault "heuristic", SymbolOpt.forceTag "T.*"] ++
        [StrategyRule.unambiguousUsage] ++
        symbolDefaultRules (lastSymbolDefault
          [SymbolOpt.forceBranch "B.*", SymbolOpt.exclude "X.*",
           SymbolOpt.symbolDefault "heuristic", SymbolOpt.forceTag "T.*"])) :=
  (c8_symbol_strategy_rule_order
      [SymbolOpt.forceBranch "B.*", SymbolOpt.exclude "X.*",
       SymbolOpt.symbolDefault "heuristic", SymbolOpt.forceTag "T.*"]
      (by
        intro value hv
        simp at hv
        subst hv
        decide)).1

end RunOpts

namespace NewRepo

/-- C6: `--bdb-txn-nosync` is forwarded to `svnadmin create` when the
filesystem type is unset or `bdb`; at cleanup, when the run is not a dry
run, the user did not pass `--bdb-txn-nosync`, and `db/DB_CONFIG` exists
with a `set_flags DB_TXN_NOSYNC` line at position `index`, that line is
commented out; when the user did pass `--bdb-txn-nosync`, the file is
left unchanged. -/
theorem c6_bdb_txn_nosync_create_and_cleanup :
    (∀ svnadmin target : String,
        svnadmin_create_command false "" svnadmin target =
          some (svnadmin ++ " create " ++ "--bdb-txn-nosync" ++ " \"" ++
            target ++ "\"")) ∧
    (∀ svnadmin target : String,
        svnadmin_create_command false "bdb" svnadmin target =
          some (svnadmin ++ " create " ++ "--fs-type=bdb" ++ " " ++
            "--bdb-txn-nosync" ++ " \"" ++ target ++ "\"")) ∧
    (∀ (contents : List String) (index : Nat),
        contents.indexOf? noSyncLine = some index →
        cleanup_db_config false false (some contents) =
          Except.ok (some (contents.set index ("# " ++ noSyncLine)))) ∧
    (∀ (dryRun : Bool) (dbConfig : Option (List String)),
        cleanup_db_config dryRun true dbConfig = Except.ok dbConfig) := by
  refine ⟨fun svnadmin target => rfl, fun svnadmin target => rfl, ?_, ?_⟩
  · intro contents index hindex
    simp [cleanup_db_config, hindex]
  · intro dryRun dbConfig
    cases dryRun <;> cases dbConfig <;> rfl

/-- Witness for C6 at a concrete repository and `DB_CONFIG` file. -/
theorem c6_bdb_txn_nosync_create_and_cleanup_witness :
    svnadmin_create_command false "" "svnadmin" "/tmp/svnrepo" =
        some ("svnadmin" ++ " create " ++ "--bdb-txn-nosync" ++ " \"" ++
          "/tmp/svnrepo" ++ "\"") ∧
      cleanup_db_config false false (some ["set_flags DB_TXN_NOSYNC\n"]) =
        Except.ok (some (List.set ["set_flags DB_TXN_NOSYNC\n"] 0
          ("# " ++ noSyncLine))) ∧
      cleanup_db_config false true (some ["set_flags DB_TXN_NOSYNC\n"]) =
        Except.ok (some ["set_flags DB_TXN_NOSYNC\n"]) :=
  ⟨c6_bdb_txn_nosync_create_and_cleanup.1 "svnadmin" "/tmp/svnrepo",
   c6_bdb_txn_nosync_create_and_cleanup.2.2.1 ["set_flags DB_TXN_NOSYNC\n"] 0
     (by rfl),
   c6_bdb_txn_nosync_create_and_cleanup.2.2.2 false
     (some ["set_flags DB_TXN_NOSYNC\n"])⟩

end NewRepo
